import Mathlib

/-!
Shallow embedding of the order-creation / payment-webhook workflow of the
bkk-inhaler-website repository.

The embedded code comes from:
  - pages/api/webhooks/paymongo.ts   (webhook handler: signature check,
    checkout_session.payment.paid and payment.failed processing)
  - pages/api/orders/index.ts        (order creation + checkout session)
  - pages/api/admin/orders/[mongoOrderId].ts (admin status update, PUT branch)
  - lib/models/Order.ts, lib/models/Product.ts (data model)

Modelling conventions: MongoDB documents are Lean structures; the two
collections are lists; `findById` / `findOne` are `List.find?`; `save` /
`updateOne` replace the document with the matching id.  JS `undefined`
reached by optional chaining is `Option.none`.  All monetary amounts,
stock quantities and order-item quantities are integers (`Int`), which is
what the Mongoose schemas validate (`Number.isInteger` validators on
price, stockQuantity, priceAtPurchase, quantity, totalAmount).  Library
functions external to the repository (the HMAC-SHA256 digest and
`JSON.parse`) are abstract function parameters of the handler.
-/

/-- Order status enum, from `OrderStatusEnum` in lib/models/Order.ts. -/
inductive OrderStatus where
  | PENDING_PAYMENT
  | PAYMENT_FAILED
  | PAYMENT_CONFIRMED
  | PROCESSING
  | SHIPPED_INTERNATIONAL
  | SHIPPED_LOCAL
  | DELIVERED
  | CANCELLED_BY_CUSTOMER
  | CANCELLED_BY_ADMIN
  | REFUNDED
deriving DecidableEq

/-- Product document (lib/models/Product.ts); only the fields the order
workflow reads.  `price` is in cents and integer-validated; `stockQuantity`
is integer-validated with a non-negative floor enforced by the webhook
handler's clamp. -/
structure Product where
  id : Nat
  name : String
  price : Int
  stockQuantity : Int
  images : List String
  isActive : Bool
deriving DecidableEq

/-- Order item snapshot (OrderItemSchema in lib/models/Order.ts). -/
structure OrderItem where
  productId : Nat
  name : String
  priceAtPurchase : Int
  quantity : Int
  image : Option String
deriving DecidableEq

/-- paymentDetails subdocument of an Order (lib/models/Order.ts); all
fields optional. -/
structure PaymentDetails where
  paymongoCheckoutId : Option String := none
  paymongoPaymentIntentId : Option String := none
  paymongoPaymentId : Option String := none
  paymentMethod : Option String := none
  paymentDate : Option Int := none
  status : Option String := none
deriving DecidableEq

/-- Order document (lib/models/Order.ts); only the fields the embedded
handlers read or write.  `id` is the Mongo `_id`, `orderId` the
human-readable id. -/
structure Order where
  id : Nat
  orderId : String
  orderItems : List OrderItem
  totalAmount : Int
  orderStatus : OrderStatus
  paymentDetails : PaymentDetails
  notes : Option String := none
  adminNotes : Option String := none
deriving DecidableEq

/-- The durable state: the Product and Order collections. -/
structure DB where
  products : List Product
  orders : List Order
deriving DecidableEq

/-- Product.findById. -/
def findProduct (ps : List Product) (pid : Nat) : Option Product :=
  ps.find? (fun p => decide (p.id = pid))

/-- Order.findById. -/
def findOrderById (os : List Order) (oid : Nat) : Option Order :=
  os.find? (fun o => decide (o.id = oid))

/-- Order.findOne on paymentDetails.paymongoPaymentId, used by the
payment.failed webhook branch. -/
def findOrderByPaymentId (os : List Order) (pid : String) : Option Order :=
  os.find? (fun o => decide (o.paymentDetails.paymongoPaymentId = some pid))

/-- order.save(): replace the document with the same `_id`. -/
def saveOrder (os : List Order) (o : Order) : List Order :=
  os.map (fun x => if x.id = o.id then o else x)

/-- Product.updateOne setting stockQuantity. -/
def setProductStock (ps : List Product) (pid : Nat) (q : Int) : List Product :=
  ps.map (fun p => if p.id = pid then { p with stockQuantity := q } else p)

/-- Effect of an admin product update that changes a product's price
(pages/api/admin/products: Product update writes touch only the products
collection, never orders). -/
def updateProductPrice (db : DB) (pid : Nat) (newPrice : Int) : DB :=
  { db with products :=
      db.products.map (fun p => if p.id = pid then { p with price := newPrice } else p) }

/-!  Webhook event payload, as read by pages/api/webhooks/paymongo.ts.
Each field models one optional-chained access path of the handler. -/

/-- checkoutSessionAttributes.payment_intent, with the paths the paid
branch reads: `.id`, `.attributes.paid_at`,
`.attributes.payments[0].attributes.source.type` (sourceType) and
`.attributes.payment_method_options.card.brand` (cardBrand). -/
structure PaymentIntentInfo where
  id : Option String
  paidAt : Option Int
  sourceType : Option String
  cardBrand : Option String
deriving DecidableEq

/-- eventResource.attributes: metadata.internal_order_id and payment_intent
for the paid branch; payment_intent_id, failed_code, failed_message for the
failed branch; paid_at read as fallback timestamp. -/
structure ResourceAttributes where
  metadataInternalOrderId : Option Nat
  paymentIntent : Option PaymentIntentInfo
  paidAt : Option Int
  paymentIntentId : Option String
  failedCode : Option String
  failedMessage : Option String
deriving DecidableEq

/-- event.data.attributes.data (the event resource). -/
structure EventResource where
  id : Option String
  attributes : Option ResourceAttributes
deriving DecidableEq

/-- The parsed webhook event envelope: event.data.id, event.data.attributes.type,
event.data.attributes.data, event.data.attributes.updated_at. -/
structure Event where
  dataId : Option String
  eventType : Option String
  resource : Option EventResource
  updatedAt : Option Int
deriving DecidableEq

/-- The order mutation of the checkout_session.payment.paid branch
(paymongo.ts lines 235-248): set orderStatus PAYMENT_CONFIRMED and populate
paymentDetails, spreading the previous paymentDetails.  `now` models
`new Date()` used when no gateway timestamp is present. -/
def confirmOrder (now : Int) (e : Event) (res : EventResource)
    (attrs : ResourceAttributes) (order : Order) : Order :=
  let paymentIntentData := attrs.paymentIntent
  let paymongoPaymentIntentId := paymentIntentData.bind (fun p => p.id)
  let paymentMethodUsed :=
    ((paymentIntentData.bind (fun p => p.sourceType)).orElse
      (fun _ => paymentIntentData.bind (fun p => p.cardBrand))).getD ("unknown")
  let paymentSucceededAt :=
    ((paymentIntentData.bind (fun p => p.paidAt)).orElse
      (fun _ => attrs.paidAt)).orElse (fun _ => e.updatedAt)
  let paymentDate :=
    match paymentSucceededAt with
    | some t => t * 1000
    | none => now
  { order with
    orderStatus := OrderStatus.PAYMENT_CONFIRMED
    paymentDetails :=
      { order.paymentDetails with
        paymongoCheckoutId := res.id.orElse (fun _ => order.paymentDetails.paymongoCheckoutId)
        paymongoPaymentId :=
          paymongoPaymentIntentId.orElse (fun _ => order.paymentDetails.paymongoPaymentId)
        paymentMethod := some paymentMethodUsed
        paymentDate := some paymentDate
        status := some ("paid") } }

/-- The stock decrement loop of the paid branch (paymongo.ts lines 250-276):
for each order item, fetch the product, compute newStock = stock - quantity,
and write `Math.max(0, newStock)`; a missing product is skipped. -/
def decrementStockForItems : List OrderItem → List Product → List Product
  | [], ps => ps
  | item :: rest, ps =>
    let ps' :=
      match findProduct ps item.productId with
      | some product =>
          setProductStock ps item.productId (max 0 (product.stockQuantity - item.quantity))
      | none => ps
    decrementStockForItems rest ps'

/-- The checkout_session.payment.paid branch (paymongo.ts lines 180-306):
resolve the order via metadata.internal_order_id; idempotency guard on
orderStatus PAYMENT_CONFIRMED or paymentDetails.status "paid"; otherwise
confirm the order, decrement stock for each item, and save the order.
Orders not in PENDING_PAYMENT only produce a warning and are processed. -/
def processPaidEvent (now : Int) (db : DB) (e : Event) (res : EventResource)
    (attrs : ResourceAttributes) : DB :=
  match attrs.metadataInternalOrderId with
  | none => db
  | some internalOrderId =>
    match findOrderById db.orders internalOrderId with
    | none => db
    | some order =>
      if order.orderStatus = OrderStatus.PAYMENT_CONFIRMED ∨
          order.paymentDetails.status = some ("paid") then db
      else
        let order' := confirmOrder now e res attrs order
        { products := decrementStockForItems order.orderItems db.products
          orders := saveOrder db.orders order' }

/-- The notes string written by the payment.failed branch (paymongo.ts
lines 334-342).  The resource id is interpolated into the message; a JS
`undefined` id renders as the string "undefined". -/
def failedNote (failureCode failureMessage resId : Option String) : String :=
  match failureMessage with
  | some m =>
      "Payment failed: " ++ m ++ " (Code: " ++ failureCode.getD ("N/A") ++
        ". PayMongo Payment ID: " ++ resId.getD ("undefined") ++ ")"
  | none =>
      "Payment failed. (Code: " ++ failureCode.getD ("N/A") ++
        ". PayMongo Payment ID: " ++ resId.getD ("undefined") ++ ")"

/-- The order mutation of the payment.failed branch (paymongo.ts lines
326-342): mark PAYMENT_FAILED, set paymentDetails.status "failed"
(spreading the previous paymentDetails), and assign the notes field. -/
def failOrder (res : EventResource) (attrs : ResourceAttributes)
    (failedOrder : Order) : Order :=
  { failedOrder with
    orderStatus := OrderStatus.PAYMENT_FAILED
    paymentDetails := { failedOrder.paymentDetails with status := some ("failed") }
    notes := some (failedNote attrs.failedCode attrs.failedMessage res.id) }

/-- The payment.failed branch (paymongo.ts lines 308-373): resolve the order
by paymentDetails.paymongoPaymentId = payment_intent_id; if it is still
PENDING_PAYMENT, apply `failOrder` and save; otherwise (or when unresolved)
no state change. -/
def processFailedEvent (db : DB) (res : EventResource)
    (attrs : ResourceAttributes) : DB :=
  match attrs.paymentIntentId with
  | none => db
  | some failedPaymentIntentId =>
    match findOrderByPaymentId db.orders failedPaymentIntentId with
    | none => db
    | some failedOrder =>
      if failedOrder.orderStatus = OrderStatus.PENDING_PAYMENT then
        { db with orders := saveOrder db.orders (failOrder res attrs failedOrder) }
      else db

/-- Event dispatch of the webhook handler (paymongo.ts lines 165-377): if the
event resource or its attributes are missing, acknowledge without processing;
otherwise switch on the event type; unrecognized types are ignored. -/
def processWebhookEvent (now : Int) (db : DB) (e : Event) : DB :=
  match e.resource with
  | none => db
  | some res =>
    match res.attributes with
    | none => db
    | some attrs =>
      if e.eventType = some ("checkout_session.payment.paid") then
        processPaidEvent now db e res attrs
      else if e.eventType = some ("payment.failed") then
        processFailedEvent db res attrs
      else db

/-!  Signature verification and the HTTP-level webhook handler. -/

/-- Split a character list on a separator character; mirrors
JavaScript's `String.prototype.split` with a one-character separator,
as used on the Paymongo-Signature header (`signatureHeader.split(",")`). -/
def splitChar (sep : Char) : List Char → List (List Char)
  | [] => [[]]
  | c :: rest =>
    let r := splitChar sep rest
    if c = sep then [] :: r
    else
      match r with
      | [] => [[c]]
      | g :: gs => (c :: g) :: gs

/-- Boolean test that the second list starts with the first; mirrors
`String.prototype.startsWith`. -/
def listStartsWith : List Char → List Char → Bool
  | [], _ => true
  | _ :: _, [] => false
  | p :: ps, c :: cs => if p = c then listStartsWith ps cs else false

/-- Everything after the first '=' character; mirrors
`part.substring(part.indexOf("=") + 1)`.  The handler only applies this to
parts that start with "s=", "v1=" or "te=", which always contain '='. -/
def afterFirstEqChar : List Char → List Char
  | [] => []
  | c :: rest => if c = ('=') then rest else afterFirstEqChar rest

/-- Parse the Paymongo-Signature header into (timestamp, providedSignature)
(paymongo.ts lines 106-124): split on ",", find the part starting with "t="
and the part starting with "s=", "v1=" or "te="; the timestamp is the part
after "t=", the signature the part after the first "=". -/
def parseSignatureHeader (h : String) : Option (String × String) :=
  let parts := splitChar (',') h.data
  match parts.find? (fun part => listStartsWith ("t=").data part),
      parts.find? (fun part =>
        listStartsWith ("s=").data part || listStartsWith ("v1=").data part ||
          listStartsWith ("te=").data part) with
  | some timestampPart, some signaturePart =>
      some (String.mk (timestampPart.drop 2), String.mk (afterFirstEqChar signaturePart))
  | _, _ => none

/-- Numeric value of a hexadecimal digit, or none. -/
def hexDigit? (c : Char) : Option Nat :=
  if ('0') ≤ c ∧ c ≤ ('9') then some (c.toNat - ('0').toNat)
  else if ('a') ≤ c ∧ c ≤ ('f') then some (c.toNat - ('a').toNat + 10)
  else if ('A') ≤ c ∧ c ≤ ('F') then some (c.toNat - ('A').toNat + 10)
  else none

/-- Bytes of `Buffer.from(s, "hex")` (Node semantics): decode hex-digit
pairs left to right, stopping at the first invalid pair; a trailing odd
digit is dropped. -/
def hexDecodeList : List Char → List Nat
  | c1 :: c2 :: rest =>
    match hexDigit? c1, hexDigit? c2 with
    | some h, some l => (16 * h + l) :: hexDecodeList rest
    | _, _ => []
  | _ => []

/-- Hex decoding of a string to bytes. -/
def hexDecode (s : String) : List Nat := hexDecodeList s.data

/-- Outcome of the signature-verification block (paymongo.ts lines 99-145).
`lengthMismatch` models `crypto.timingSafeEqual` throwing on buffers of
different length, which the surrounding catch turns into a 400. -/
inductive SigCheck where
  | missing
  | malformed
  | lengthMismatch
  | mismatch
  | valid
deriving DecidableEq

/-- The raw webhook HTTP request. -/
structure WebhookRequest where
  method : String
  rawBody : String
  signatureHeader : Option String
deriving DecidableEq

/-- Signature verification (paymongo.ts lines 99-145).  `hmacHex` is the
abstract HMAC-SHA256 hex digest under the pre-shared webhook secret; the
expected signature is `hmacHex` of `{timestamp}.{rawBody}` (written here as
timestamp ++ "." ++ rawBody) and is compared byte-wise against the hex
decoding of the provided signature, as `crypto.timingSafeEqual` does. -/
def verifySignature (hmacHex : String → String) (req : WebhookRequest) : SigCheck :=
  match req.signatureHeader with
  | none => SigCheck.missing
  | some h =>
    match parseSignatureHeader h with
    | none => SigCheck.malformed
    | some (timestamp, providedSignature) =>
      let signedPayload := timestamp ++ "." ++ req.rawBody
      let expectedSignature := hmacHex signedPayload
      let expectedBytes := hexDecode expectedSignature
      let providedBytes := hexDecode providedSignature
      if expectedBytes.length ≠ providedBytes.length then SigCheck.lengthMismatch
      else if expectedBytes = providedBytes then SigCheck.valid
      else SigCheck.mismatch

/-- HTTP response of the webhook handler: status code and resulting state. -/
structure WebhookResponse where
  status : Nat
  db : DB
deriving DecidableEq

/-- The webhook handler (default export of pages/api/webhooks/paymongo.ts):
405 for non-POST, 500 when the webhook secret is not configured, 400/403 on
signature failure, 400 when `JSON.parse` of the raw body fails (modelled by
`parseEvent` returning none), and otherwise 200 with the event processed.
The final catch also answers 200 on internal processing errors. -/
def paymongoWebhookHandler (hmacHex : String → String)
    (parseEvent : String → Option Event) (secretConfigured : Bool)
    (now : Int) (db : DB) (req : WebhookRequest) : WebhookResponse :=
  if req.method ≠ ("POST") then { status := 405, db := db }
  else if ¬ secretConfigured then { status := 500, db := db }
  else
    match verifySignature hmacHex req with
    | SigCheck.missing => { status := 400, db := db }
    | SigCheck.malformed => { status := 400, db := db }
    | SigCheck.lengthMismatch => { status := 400, db := db }
    | SigCheck.mismatch => { status := 403, db := db }
    | SigCheck.valid =>
      match parseEvent req.rawBody with
      | none => { status := 400, db := db }
      | some e => { status := 200, db := processWebhookEvent now db e }

/-!  Order creation (POST handler of pages/api/orders/index.ts). -/

/-- A validated cart item (CreateOrderSchema / OrderItemSchema in
lib/validators/orderValidators.ts: quantity is a positive integer). -/
structure RequestedItem where
  productId : Nat
  quantity : Int
deriving DecidableEq

/-- The three business-rule failures of the validation loop
(orders/index.ts lines 71-88), each answered with HTTP 400. -/
inductive CreateOrderError where
  | productNotFound (productId : Nat)
  | productInactive (name : String)
  | insufficientStock (name : String) (stockQuantity : Int)
deriving DecidableEq

/-- The violation (if any) of a single requested item against the product
collection, mirroring the checks of the validation loop in order:
missing product, inactive product, insufficient stock. -/
def itemError (ps : List Product) (item : RequestedItem) : Option CreateOrderError :=
  match findProduct ps item.productId with
  | none => some (CreateOrderError.productNotFound item.productId)
  | some product =>
    if product.isActive = false then some (CreateOrderError.productInactive product.name)
    else if product.stockQuantity < item.quantity then
      some (CreateOrderError.insufficientStock product.name product.stockQuantity)
    else none

/-- Snapshot of a product into an order item (orders/index.ts lines 90-99):
name, price and first image frozen at creation time. -/
def snapshotItem (product : Product) (item : RequestedItem) : OrderItem :=
  { productId := product.id
    name := product.name
    priceAtPurchase := product.price
    quantity := item.quantity
    image := product.images.head? }

/-- The sequential validation loop (orders/index.ts lines 71-101): fetch
each product, fail fast on the first violation, otherwise accumulate the
snapshot list and the running total of price * quantity.  The final
`Math.round(calculatedTotalAmount)` (line 103) is the identity because
every price and quantity is integer-validated by the schemas, so the total
is already an integer. -/
def processItems (ps : List Product) : List RequestedItem →
    Except CreateOrderError (List OrderItem × Int)
  | [] => Except.ok ([], 0)
  | item :: rest =>
    match findProduct ps item.productId with
    | none => Except.error (CreateOrderError.productNotFound item.productId)
    | some product =>
      if product.isActive = false then
        Except.error (CreateOrderError.productInactive product.name)
      else if product.stockQuantity < item.quantity then
        Except.error (CreateOrderError.insufficientStock product.name product.stockQuantity)
      else
        match processItems ps rest with
        | Except.error e => Except.error e
        | Except.ok (items, total) =>
            Except.ok (snapshotItem product item :: items, product.price * item.quantity + total)

/-- Outcome of the PayMongo checkout-session creation call
(orders/index.ts lines 197-240): either the parsed response fields, or an
API / network error caught by the paymongoError catch block. -/
inductive GatewayOutcome where
  | ok (checkoutUrl : String) (checkoutSessionId : String) (paymentIntentId : Option String)
  | apiError
deriving DecidableEq

/-- Response of the create-order endpoint: HTTP status, the business error
when validation failed, the order identifiers the body carries, and the
resulting state. -/
structure CreateOrderResponse where
  status : Nat
  error : Option CreateOrderError := none
  orderId : Option String := none
  internalOrderId : Option Nat := none
  db : DB
deriving DecidableEq

/-- The create-order POST handler (orders/index.ts lines 40-324), after Zod
validation: run the validation loop (fail fast, HTTP 400, no write); persist
the order in PENDING_PAYMENT with empty paymentDetails; on missing gateway
key answer 500; on gateway failure answer 502 with the persisted order's
identifiers and do not roll the order back; a response missing checkout_url
or the session id throws into the same catch (502); on success store the
checkout-session id, the payment-intent id (as paymongoPaymentIntentId) and
status "awaiting_payment_gateway" and answer 201.  `newInternalId` models
the Mongo `_id` assigned at save, `generatedOrderId` the generateOrderId()
result. -/
def createOrder (db : DB) (newInternalId : Nat) (generatedOrderId : String)
    (items : List RequestedItem) (gateway : GatewayOutcome)
    (secretConfigured : Bool) : CreateOrderResponse :=
  match processItems db.products items with
  | Except.error e => { status := 400, error := some e, db := db }
  | Except.ok (orderItems, calculatedTotalAmount) =>
    let newOrder : Order :=
      { id := newInternalId
        orderId := generatedOrderId
        orderItems := orderItems
        totalAmount := calculatedTotalAmount
        orderStatus := OrderStatus.PENDING_PAYMENT
        paymentDetails := {} }
    let db1 : DB := { db with orders := db.orders ++ [newOrder] }
    let orderIdentifier :=
      if generatedOrderId = "" then toString newInternalId else generatedOrderId
    if ¬ secretConfigured then
      { status := 500, orderId := some generatedOrderId
        internalOrderId := some newInternalId, db := db1 }
    else
      match gateway with
      | GatewayOutcome.apiError =>
        { status := 502, orderId := some orderIdentifier
          internalOrderId := some newInternalId, db := db1 }
      | GatewayOutcome.ok checkoutUrl checkoutSessionId paymentIntentId =>
        if checkoutUrl = "" ∨ checkoutSessionId = "" then
          { status := 502, orderId := some orderIdentifier
            internalOrderId := some newInternalId, db := db1 }
        else
          let updated :=
            { newOrder with
              paymentDetails :=
                { newOrder.paymentDetails with
                  paymongoCheckoutId := some checkoutSessionId
                  paymongoPaymentIntentId := paymentIntentId
                  status := some ("awaiting_payment_gateway") } }
          { status := 201, orderId := some generatedOrderId
            internalOrderId := some newInternalId
            db := { db1 with orders := saveOrder db1.orders updated } }

/-!  Admin order-status update (PUT branch of
pages/api/admin/orders/[mongoOrderId].ts). -/

/-- The order-status strings of `OrderStatusEnum`. -/
def statusString : OrderStatus → String
  | OrderStatus.PENDING_PAYMENT => "PENDING_PAYMENT"
  | OrderStatus.PAYMENT_FAILED => "PAYMENT_FAILED"
  | OrderStatus.PAYMENT_CONFIRMED => "PAYMENT_CONFIRMED"
  | OrderStatus.PROCESSING => "PROCESSING"
  | OrderStatus.SHIPPED_INTERNATIONAL => "SHIPPED_INTERNATIONAL"
  | OrderStatus.SHIPPED_LOCAL => "SHIPPED_LOCAL"
  | OrderStatus.DELIVERED => "DELIVERED"
  | OrderStatus.CANCELLED_BY_CUSTOMER => "CANCELLED_BY_CUSTOMER"
  | OrderStatus.CANCELLED_BY_ADMIN => "CANCELLED_BY_ADMIN"
  | OrderStatus.REFUNDED => "REFUNDED"

/-- Body of the PUT request after Zod validation (UpdateOrderStatusSchema in
lib/validators/adminOrderValidators.ts: a valid status and an optional,
trimmed admin note). -/
structure AdminUpdateRequest where
  status : OrderStatus
  adminNote : Option String
deriving DecidableEq

/-- Response of the admin update endpoint. -/
structure AdminUpdateResponse where
  status : Nat
  db : DB
deriving DecidableEq

/-- The note line added when an admin note is supplied
([mongoOrderId].ts lines 68-73): a timestamp/status tag followed by the
trimmed note.  `nowStr` models the formatted current date. -/
def adminNoteTagged (nowStr : String) (newStatus : OrderStatus) (note : String) : String :=
  "[" ++ nowStr ++ " - Status: " ++ statusString newStatus ++ "]: " ++ note.trim

/-- The PUT branch ([mongoOrderId].ts lines 51-109): find the order (404 if
missing), set orderStatus to the requested status unconditionally, append
the tagged admin note to adminNotes when a non-empty note is supplied, save,
and answer 200.  There is no rejection of a same-status, no-note request.
The status-change email is fire-and-forget and does not touch state. -/
def adminUpdateOrderStatus (nowStr : String) (db : DB) (mongoOrderId : Nat)
    (body : AdminUpdateRequest) : AdminUpdateResponse :=
  match findOrderById db.orders mongoOrderId with
  | none => { status := 404, db := db }
  | some orderToUpdate =>
    let o1 := { orderToUpdate with orderStatus := body.status }
    let o2 :=
      match body.adminNote with
      | some note =>
        if note.trim ≠ "" then
          let tagged := adminNoteTagged nowStr body.status note
          let previous := o1.adminNotes.getD ("")
          let combined := if previous = "" then tagged else previous ++ "\n" ++ tagged
          { o1 with adminNotes := some combined }
        else o1
      | none => o1
    { status := 200, db := { db with orders := saveOrder db.orders o2 } }

/-- Subtotal sum of a list of order items: priceAtPurchase * quantity. -/
def orderItemsTotal (items : List OrderItem) : Int :=
  (items.map (fun it => it.priceAtPurchase * it.quantity)).sum

/-!  Concrete fixtures used by witnesses and counterexamples: a catalog
with one product (price 10000 cents, stock 5) and an order for 2 units of
it, mirroring the scenario of the specification. -/

/-- A product: price 10000 cents, stock 5, active. -/
def sampleProduct : Product :=
  { id := 1, name := "Inhaler", price := 10000, stockQuantity := 5
    images := [], isActive := true }

/-- An order for 2 units of the sample product, pending payment. -/
def sampleOrder : Order :=
  { id := 9, orderId := "ORD-9"
    orderItems := [{ productId := 1, name := "Inhaler", priceAtPurchase := 10000
                     quantity := 2, image := none }]
    totalAmount := 20000, orderStatus := OrderStatus.PENDING_PAYMENT
    paymentDetails := {} }

/-- State with the sample product and the sample pending order. -/
def sampleDb : DB := { products := [sampleProduct], orders := [sampleOrder] }

/-- Resource attributes of a paid event for the sample order. -/
def samplePaidAttrs : ResourceAttributes :=
  { metadataInternalOrderId := some 9
    paymentIntent := some
      { id := some ("pi_9"), paidAt := some 111
        sourceType := some ("gcash"), cardBrand := none }
    paidAt := none, paymentIntentId := none
    failedCode := none, failedMessage := none }

/-- Event resource of a paid event for the sample order. -/
def samplePaidResource : EventResource :=
  { id := some ("cs_1"), attributes := some samplePaidAttrs }

/-- A checkout_session.payment.paid event for the sample order. -/
def samplePaidEvent : Event :=
  { dataId := some ("evt_1")
    eventType := some ("checkout_session.payment.paid")
    resource := some samplePaidResource
    updatedAt := some 112 }

/-- The sample order in a state an admin has already cancelled. -/
def cancelledOrder : Order :=
  { sampleOrder with orderStatus := OrderStatus.CANCELLED_BY_ADMIN }

/-- State whose only order is already CANCELLED_BY_ADMIN. -/
def cancelledDb : DB := { products := [sampleProduct], orders := [cancelledOrder] }

/-- Boolean substring containment on character lists. -/
def listContainsSub (needle : List Char) : List Char → Bool
  | [] => listStartsWith needle []
  | c :: cs => listStartsWith needle (c :: cs) || listContainsSub needle cs

/-- The sample order, pending payment, with the payment-intent id recorded
under paymentDetails.paymongoPaymentId (the field the failed branch queries)
and a previously recorded note. -/
def failedReadyOrder : Order :=
  { sampleOrder with
    paymentDetails := { sampleOrder.paymentDetails with paymongoPaymentId := some ("pi_9") }
    notes := some ("PRIOR NOTE") }

/-- State with the pending order that a payment.failed event can resolve. -/
def failedReadyDb : DB := { products := [sampleProduct], orders := [failedReadyOrder] }

/-- Resource attributes of a payment.failed event for payment intent pi_9. -/
def sampleFailedAttrs : ResourceAttributes :=
  { metadataInternalOrderId := none, paymentIntent := none, paidAt := none
    paymentIntentId := some ("pi_9")
    failedCode := some ("card_declined")
    failedMessage := some ("Card was declined") }

/-- Event resource of the payment.failed event. -/
def sampleFailedResource : EventResource :=
  { id := some ("pay_1"), attributes := some sampleFailedAttrs }

/-- A payment.failed event carrying payment intent pi_9. -/
def sampleFailedEvent : Event :=
  { dataId := some ("evt_2")
    eventType := some ("payment.failed")
    resource := some sampleFailedResource
    updatedAt := none }

/-- The notes string the failed branch writes for the sample failed event. -/
def sampleFailedNoteText : String :=
  "Payment failed: Card was declined (Code: card_declined. PayMongo Payment ID: pay_1)"

/-- The order persisted in step 5 of order creation: PENDING_PAYMENT with
empty paymentDetails, identifiers and snapshot as computed. -/
def pendingOrder (nid : Nat) (gen : String) (snap : List OrderItem) (total : Int) : Order :=
  { id := nid, orderId := gen, orderItems := snap, totalAmount := total
    orderStatus := OrderStatus.PENDING_PAYMENT, paymentDetails := {} }

/-- State with the sample product and no orders, for the creation pipeline. -/
def catalogOnlyDb : DB := { products := [sampleProduct], orders := [] }

/-- A cart requesting 2 units of the sample product. -/
def sampleCart : List RequestedItem := [{ productId := 1, quantity := 2 }]

/-- A cart whose first item is valid and whose second references a
nonexistent product (id 2). -/
def cartWithMissing : List RequestedItem :=
  [{ productId := 1, quantity := 1 }, { productId := 2, quantity := 1 }]

/-- Result of creating the sample order when the gateway succeeds and
reports payment-intent id pi_77. -/
def createdWithIntent : CreateOrderResponse :=
  createOrder catalogOnlyDb 9 ("ORD-9") sampleCart
    (GatewayOutcome.ok ("https://pay.example") ("cs_77") (some ("pi_77"))) true

/-- A payment.failed event carrying the payment-intent id pi_77 that the
checkout session of `createdWithIntent` was created with. -/
def failedEvent77 : Event :=
  { dataId := some ("evt_3")
    eventType := some ("payment.failed")
    resource := some
      { id := some ("pay_2")
        attributes := some
          { metadataInternalOrderId := none, paymentIntent := none, paidAt := none
            paymentIntentId := some ("pi_77")
            failedCode := some ("generic_decline"), failedMessage := none } }
    updatedAt := none }

/-- The sample order in PROCESSING, for the admin no-op update scenario. -/
def processingOrder : Order :=
  { sampleOrder with orderStatus := OrderStatus.PROCESSING }

/-- State whose only order is in PROCESSING. -/
def processingDb : DB := { products := [sampleProduct], orders := [processingOrder] }

/-- An admin PUT body requesting the status the order already has, with no
note. -/
def noopBody : AdminUpdateRequest :=
  { status := OrderStatus.PROCESSING, adminNote := none }

/-- A POST webhook request whose body was tampered with while keeping a
stale signature: the signature bytes (cd) differ from the digest bytes
(ab) that `sampleHmacHex` assigns to the signed payload. -/
def tamperedRequest : WebhookRequest :=
  { method := "POST", rawBody := "tampered body"
    signatureHeader := some ("t=1,s=cd") }

/-- A JSON parser that parses every body to the sample paid event. -/
def parseEventSample : String → Option Event := fun _ => some samplePaidEvent

/-- A fixed HMAC oracle used only by concrete witnesses: every payload is
assigned the digest "ab". -/
def sampleHmacHex : String → String := fun _ => "ab"

/-- A JSON parser that fails on every body, modelling an unparseable
payload. -/
def parseEventNone : String → Option Event := fun _ => none

/-- A concrete POST webhook request whose signature header matches
`sampleHmacHex`. -/
def sampleSignedRequest : WebhookRequest :=
  { method := "POST", rawBody := "not json"
    signatureHeader := some ("t=1,s=ab") }

/-!  Theorems. -/

/-- Saving an order that keeps the id of the order found by `findOrderById`
makes the saved order the one found afterwards. -/
theorem findOrderById_saveOrder (oid : Nat) (o o' : Order) (hid : o'.id = o.id) :
    ∀ os : List Order, findOrderById os oid = some o →
      findOrderById (saveOrder os o') oid = some o'
  | [], hfind => by simp [findOrderById] at hfind
  | x :: xs, hfind => by
    by_cases hx : x.id = oid
    · have hxo : x = o := by
        simpa [findOrderById, List.find?, hx] using hfind
      have hx' : o'.id = x.id := hxo ▸ hid
      simp [findOrderById, saveOrder, List.find?, hx', hx]
    · have hfind' : findOrderById xs oid = some o := by
        simpa [findOrderById, List.find?, hx] using hfind
      have hoid : o.id = oid := by
        have hp := List.find?_some hfind'
        exact of_decide_eq_true hp
      have hx' : ¬ x.id = o'.id := by
        rw [hid, hoid]; exact hx
      have htail := findOrderById_saveOrder oid o o' hid xs hfind'
      simpa [findOrderById, saveOrder, List.find?, hx', hx] using htail

/-- Applying the paid-event branch twice is the same as applying it once:
the first successful application sets orderStatus PAYMENT_CONFIRMED, so
the idempotency guard stops the second; every no-op case stays a no-op. -/
theorem processPaidEvent_idem (now now2 : Int) (db : DB) (e : Event)
    (res : EventResource) (attrs : ResourceAttributes) :
    processPaidEvent now2 (processPaidEvent now db e res attrs) e res attrs =
      processPaidEvent now db e res attrs := by
  unfold processPaidEvent
  cases hmeta : attrs.metadataInternalOrderId with
  | none => rfl
  | some oid =>
    cases hfind : findOrderById db.orders oid with
    | none => simp [hfind]
    | some order =>
      by_cases hguard : order.orderStatus = OrderStatus.PAYMENT_CONFIRMED ∨
          order.paymentDetails.status = some ("paid")
      · simp [hfind, hguard]
      · have hid : (confirmOrder now e res attrs order).id = order.id := rfl
        have hsaved := findOrderById_saveOrder oid order
          (confirmOrder now e res attrs order) hid db.orders hfind
        have hconf : (confirmOrder now e res attrs order).orderStatus =
            OrderStatus.PAYMENT_CONFIRMED := rfl
        simp [hfind, hguard, hsaved, hconf]

/-- C1: applying the same checkout_session.payment.paid webhook event twice
against the same state changes the state exactly as applying it once: after
the first application every subsequent delivery of the event leaves every
order's status and paymentDetails and every product's stockQuantity
unchanged, so stock is decremented at most once per order item. -/
theorem paid_webhook_idempotent (now now2 : Int) (db : DB) (e : Event)
    (hty : e.eventType = some ("checkout_session.payment.paid")) :
    processWebhookEvent now2 (processWebhookEvent now db e) e =
      processWebhookEvent now db e := by
  cases hres : e.resource with
  | none => simp [processWebhookEvent, hres]
  | some res =>
    cases hattrs : res.attributes with
    | none => simp [processWebhookEvent, hres, hattrs]
    | some attrs =>
      have h1 : processWebhookEvent now db e = processPaidEvent now db e res attrs := by
        simp [processWebhookEvent, hres, hattrs, hty]
      have h2 : processWebhookEvent now2 (processPaidEvent now db e res attrs) e =
          processPaidEvent now2 (processPaidEvent now db e res attrs) e res attrs := by
        simp [processWebhookEvent, hres, hattrs, hty]
      rw [h1, h2, processPaidEvent_idem]

/-- Witness for C1 at the specification's own scenario: order of 2 units of
a product with stock 5; the first delivery confirms the order and sets the
stock to 3, the second delivery changes nothing. -/
theorem paid_webhook_idempotent_witness :
    samplePaidEvent.eventType = some ("checkout_session.payment.paid") ∧
    (processWebhookEvent 0 sampleDb samplePaidEvent).products =
      [{ sampleProduct with stockQuantity := 3 }] ∧
    processWebhookEvent 1 (processWebhookEvent 0 sampleDb samplePaidEvent) samplePaidEvent =
      processWebhookEvent 0 sampleDb samplePaidEvent :=
  ⟨by decide, by decide,
    paid_webhook_idempotent 0 1 sampleDb samplePaidEvent (by decide)⟩

/-- C10: the success-path idempotency guard only checks that the order is
not already paid; a paid event for an order in any other status — here
stated for every status other than PAYMENT_CONFIRMED with internal payment
status other than "paid", including the cancelled, refunded and failed
statuses — is still processed: the order is set to PAYMENT_CONFIRMED with
paymentDetails.status "paid" and stock is decremented for its items. -/
theorem paid_webhook_ignores_other_statuses (now : Int) (db : DB) (e : Event)
    (res : EventResource) (attrs : ResourceAttributes) (oid : Nat) (o : Order)
    (hres : e.resource = some res) (hattrs : res.attributes = some attrs)
    (hty : e.eventType = some ("checkout_session.payment.paid"))
    (hmeta : attrs.metadataInternalOrderId = some oid)
    (hfind : findOrderById db.orders oid = some o)
    (hnc : o.orderStatus ≠ OrderStatus.PAYMENT_CONFIRMED)
    (hnp : o.paymentDetails.status ≠ some ("paid")) :
    processWebhookEvent now db e =
      { products := decrementStockForItems o.orderItems db.products
        orders := saveOrder db.orders (confirmOrder now e res attrs o) } ∧
    (confirmOrder now e res attrs o).orderStatus = OrderStatus.PAYMENT_CONFIRMED ∧
    (confirmOrder now e res attrs o).paymentDetails.status = some ("paid") := by
  refine ⟨?_, rfl, rfl⟩
  have hguard : ¬ (o.orderStatus = OrderStatus.PAYMENT_CONFIRMED ∨
      o.paymentDetails.status = some ("paid")) := by
    rintro (h | h)
    · exact hnc h
    · exact hnp h
  simp [processWebhookEvent, hres, hattrs, hty, processPaidEvent, hmeta, hfind, hguard]

/-- Witness for C10: the paid event applied to an order already
CANCELLED_BY_ADMIN still confirms it and decrements stock. -/
theorem paid_webhook_ignores_other_statuses_witness :
    processWebhookEvent 0 cancelledDb samplePaidEvent =
      { products := decrementStockForItems cancelledOrder.orderItems cancelledDb.products
        orders := saveOrder cancelledDb.orders
          (confirmOrder 0 samplePaidEvent samplePaidResource samplePaidAttrs cancelledOrder) } ∧
    (confirmOrder 0 samplePaidEvent samplePaidResource samplePaidAttrs
      cancelledOrder).orderStatus = OrderStatus.PAYMENT_CONFIRMED ∧
    (confirmOrder 0 samplePaidEvent samplePaidResource samplePaidAttrs
      cancelledOrder).paymentDetails.status = some ("paid") :=
  paid_webhook_ignores_other_statuses 0 cancelledDb samplePaidEvent
    samplePaidResource samplePaidAttrs 9 cancelledOrder (by decide) (by decide)
    (by decide) (by decide) (by decide) (by decide) (by decide)

/-- C7 counterexample: processing a payment.failed event for a pending
order that already carries a recorded note replaces the notes field with
the failure message; the previously recorded note does not occur in the
new value, so it is not preserved. -/
theorem failed_webhook_notes_counterexample :
    failedReadyOrder.notes = some ("PRIOR NOTE") ∧
    failedReadyOrder.orderStatus = OrderStatus.PENDING_PAYMENT ∧
    (findOrderById (processWebhookEvent 0 failedReadyDb sampleFailedEvent).orders 9).map
      (fun o => o.notes) = some (some sampleFailedNoteText) ∧
    listContainsSub ("PRIOR NOTE").data sampleFailedNoteText.data = false := by
  refine ⟨by decide, by decide, by decide, by decide⟩

/-- C7 (amended): on a payment.failed event whose payment_intent_id
resolves an order, if that order is still PENDING_PAYMENT the handler sets
orderStatus PAYMENT_FAILED, sets paymentDetails.status "failed", overwrites
the notes field with the failure code/message (previously recorded notes
are not preserved), and persists the order; if the order is no longer
PENDING_PAYMENT, no state change is made. -/
theorem failed_webhook_behavior (now : Int) (db : DB) (e : Event)
    (res : EventResource) (attrs : ResourceAttributes) (pid : String) (o : Order)
    (hres : e.resource = some res) (hattrs : res.attributes = some attrs)
    (hty : e.eventType = some ("payment.failed"))
    (hpid : attrs.paymentIntentId = some pid)
    (hfind : findOrderByPaymentId db.orders pid = some o) :
    (o.orderStatus = OrderStatus.PENDING_PAYMENT →
      processWebhookEvent now db e =
        { db with orders := saveOrder db.orders (failOrder res attrs o) }) ∧
    (o.orderStatus ≠ OrderStatus.PENDING_PAYMENT →
      processWebhookEvent now db e = db) := by
  have hne : ¬ (some ("payment.failed") = some ("checkout_session.payment.paid")) := by
    decide
  constructor
  · intro hp
    simp [processWebhookEvent, hres, hattrs, hty, hne, processFailedEvent, hpid, hfind, hp]
  · intro hp
    simp [processWebhookEvent, hres, hattrs, hty, hne, processFailedEvent, hpid, hfind, hp]

/-- Witness for the amended C7: the failed event marks the concrete pending
order PAYMENT_FAILED with the failure notes written over the prior note. -/
theorem failed_webhook_behavior_witness :
    processWebhookEvent 0 failedReadyDb sampleFailedEvent =
      { failedReadyDb with
        orders := saveOrder failedReadyDb.orders
          (failOrder sampleFailedResource sampleFailedAttrs failedReadyOrder) } :=
  (failed_webhook_behavior 0 failedReadyDb sampleFailedEvent sampleFailedResource
    sampleFailedAttrs ("pi_9") failedReadyOrder (by decide) (by decide) (by decide)
    (by decide) (by decide)).1 (by decide)

/-- C2: evaluation of the code at the failing input.  Order creation records
the gateway payment-intent id pi_77 under paymentDetails.paymongoPaymentIntentId
and leaves paymentDetails.paymongoPaymentId unset, while the payment.failed
branch looks the order up by paymentDetails.paymongoPaymentId; so a
payment.failed event carrying payment_intent_id pi_77 resolves no order and
the still-pending order is left unchanged, contradicting the claim that the
event resolves the order whose checkout session was created with that
payment-intent id. -/
theorem failed_lookup_misses_creation_intent_id :
    (findOrderById createdWithIntent.db.orders 9).map
      (fun o => o.paymentDetails.paymongoPaymentIntentId) = some (some ("pi_77")) ∧
    (findOrderById createdWithIntent.db.orders 9).map
      (fun o => o.paymentDetails.paymongoPaymentId) = some none ∧
    (findOrderById createdWithIntent.db.orders 9).map
      (fun o => o.orderStatus) = some OrderStatus.PENDING_PAYMENT ∧
    findOrderByPaymentId createdWithIntent.db.orders ("pi_77") = none ∧
    processWebhookEvent 0 createdWithIntent.db failedEvent77 = createdWithIntent.db := by
  refine ⟨by decide, by decide, by decide, by decide, by decide⟩

/-- C8 counterexample: a PUT whose requested status equals the order's
current status (PROCESSING) with no note supplied is not rejected: the
handler answers 200 and the state is unchanged. -/
theorem admin_noop_update_counterexample :
    (adminUpdateOrderStatus ("2026-01-01") processingDb 9 noopBody).status = 200 ∧
    (adminUpdateOrderStatus ("2026-01-01") processingDb 9 noopBody).db = processingDb := by
  refine ⟨by decide, by decide⟩

/-- C8 (amended): AdminUpdateOrderStatus has no no-op guard: a request whose
newStatus equals the order's current orderStatus with no note supplied is
accepted — the order is saved unchanged and the handler returns success
(HTTP 200). -/
theorem admin_update_accepts_noop (nowStr : String) (db : DB) (oid : Nat)
    (o : Order) (body : AdminUpdateRequest)
    (hfind : findOrderById db.orders oid = some o)
    (hst : body.status = o.orderStatus) (hnote : body.adminNote = none) :
    adminUpdateOrderStatus nowStr db oid body =
      { status := 200, db := { db with orders := saveOrder db.orders o } } := by
  simp [adminUpdateOrderStatus, hfind, hnote, hst]

/-- Witness for the amended C8 at the concrete no-op request. -/
theorem admin_update_accepts_noop_witness :
    adminUpdateOrderStatus ("2026-01-01") processingDb 9 noopBody =
      { status := 200
        db := { processingDb with
                orders := saveOrder processingDb.orders processingOrder } } :=
  admin_update_accepts_noop ("2026-01-01") processingDb 9 processingOrder noopBody
    (by decide) (by decide) (by decide)

/-- C3 counterexample: a request whose signature verifies but whose body
does not parse as JSON is answered with 400, not with a success
acknowledgment, contradicting the claim that every payload is answered 200
once signature verification passes. -/
theorem webhook_unparseable_returns_400 :
    verifySignature sampleHmacHex sampleSignedRequest = SigCheck.valid ∧
    (paymongoWebhookHandler sampleHmacHex parseEventNone true 0 sampleDb
      sampleSignedRequest).status = 400 ∧
    ¬ (paymongoWebhookHandler sampleHmacHex parseEventNone true 0 sampleDb
      sampleSignedRequest).status = 200 := by
  refine ⟨by decide, by decide, by decide⟩

/-- C3 (amended): once signature verification passes and the raw body
parses as JSON, the handler answers 200 for every event payload and every
state — including events that are malformed beyond parsing, reference
missing orders, or are of unrecognized type; after a valid signature a
body that fails JSON parsing is answered 400, and the other non-200
responses are 400/403 for missing/invalid signatures and 500 for a missing
webhook secret. -/
theorem webhook_acknowledges_parsed_events (hmacHex : String → String)
    (parseEvent : String → Option Event) (now : Int) (db : DB)
    (req : WebhookRequest) (e : Event)
    (hmethod : req.method = ("POST"))
    (hsig : verifySignature hmacHex req = SigCheck.valid)
    (hparse : parseEvent req.rawBody = some e) :
    (paymongoWebhookHandler hmacHex parseEvent true now db req).status = 200 := by
  simp [paymongoWebhookHandler, hmethod, hsig, hparse]

/-- Witness for the amended C3: the signed request with a parseable body is
acknowledged with 200. -/
theorem webhook_acknowledges_parsed_events_witness :
    (paymongoWebhookHandler sampleHmacHex parseEventSample true 0 sampleDb
      sampleSignedRequest).status = 200 :=
  webhook_acknowledges_parsed_events sampleHmacHex parseEventSample 0 sampleDb
    sampleSignedRequest samplePaidEvent (by decide) (by decide) (by decide)

/-- C6: a POST webhook request whose provided signature does not decode to
the bytes of the HMAC-SHA256 hex digest of timestamp ++ "." ++ rawBody —
which covers a tampered body under a stale signature — or whose signature
header is missing or malformed, is rejected with 400 or 403 before any
event processing, and the state is unchanged. -/
theorem webhook_bad_signature_rejected (hmacHex : String → String)
    (parseEvent : String → Option Event) (now : Int) (db : DB)
    (req : WebhookRequest) (hmethod : req.method = ("POST"))
    (hbad : ∀ t s, req.signatureHeader.bind parseSignatureHeader = some (t, s) →
      hexDecode s ≠ hexDecode (hmacHex (t ++ "." ++ req.rawBody))) :
    ((paymongoWebhookHandler hmacHex parseEvent true now db req).status = 400 ∨
      (paymongoWebhookHandler hmacHex parseEvent true now db req).status = 403) ∧
    (paymongoWebhookHandler hmacHex parseEvent true now db req).db = db := by
  have hv : verifySignature hmacHex req ≠ SigCheck.valid := by
    unfold verifySignature
    cases hsh : req.signatureHeader with
    | none => simp
    | some h =>
      simp only []
      cases hph : parseSignatureHeader h with
      | none => simp [hph]
      | some ts =>
        obtain ⟨t, s⟩ := ts
        have hne := hbad t s (by rw [hsh]; simpa using hph)
        have heq : hexDecode (hmacHex (t ++ "." ++ req.rawBody)) ≠ hexDecode s :=
          fun hh => hne hh.symm
        by_cases hlen : (hexDecode (hmacHex (t ++ "." ++ req.rawBody))).length ≠
            (hexDecode s).length
        · simp [hlen]
        · simp [hlen, heq]
  cases hvs : verifySignature hmacHex req with
  | valid => exact absurd hvs hv
  | missing => simp [paymongoWebhookHandler, hmethod, hvs]
  | malformed => simp [paymongoWebhookHandler, hmethod, hvs]
  | lengthMismatch => simp [paymongoWebhookHandler, hmethod, hvs]
  | mismatch => simp [paymongoWebhookHandler, hmethod, hvs]

/-- Witness for C6: the tampered request (body changed, stale signature cd
against digest ab) is rejected and leaves the state unchanged. -/
theorem webhook_bad_signature_rejected_witness :
    ((paymongoWebhookHandler sampleHmacHex parseEventNone true 0 sampleDb
        tamperedRequest).status = 400 ∨
      (paymongoWebhookHandler sampleHmacHex parseEventNone true 0 sampleDb
        tamperedRequest).status = 403) ∧
    (paymongoWebhookHandler sampleHmacHex parseEventNone true 0 sampleDb
      tamperedRequest).db = sampleDb :=
  webhook_bad_signature_rejected sampleHmacHex parseEventNone 0 sampleDb
    tamperedRequest (by decide)
    (by
      intro t s h
      have hconc : tamperedRequest.signatureHeader.bind parseSignatureHeader =
          some (("1" : String), ("cd" : String)) := by decide
      rw [hconc] at h
      have h' := Option.some.inj h
      rw [Prod.mk.injEq] at h'
      obtain ⟨ht, hs⟩ := h'
      subst ht
      subst hs
      decide)

/-- A member on which f is some forces findSome? to produce a value. -/
theorem findSome?_isSome_of_mem {α β : Type} (f : α → Option β) :
    ∀ (l : List α) (x : α), x ∈ l → (f x).isSome = true →
      ∃ b, l.findSome? f = some b
  | [], x, hx, _ => absurd hx (List.not_mem_nil x)
  | a :: as, x, hx, hfx => by
    cases hfa : f a with
    | some b => exact ⟨b, by simp [List.findSome?, hfa]⟩
    | none =>
      rcases List.mem_cons.mp hx with rfl | hx'
      · rw [hfa] at hfx; simp at hfx
      · obtain ⟨b, hb⟩ := findSome?_isSome_of_mem f as x hx' hfx
        exact ⟨b, by simp [List.findSome?, hfa, hb]⟩

/-- If the head item violates a check, the validation loop fails with that
head's error. -/
theorem processItems_head_error (ps : List Product) (item : RequestedItem)
    (rest : List RequestedItem) (e0 : CreateOrderError)
    (hie : itemError ps item = some e0) :
    processItems ps (item :: rest) = Except.error e0 := by
  cases hfp : findProduct ps item.productId with
  | none =>
    simp [itemError, hfp] at hie
    simp [processItems, hfp, hie]
  | some product =>
    by_cases hact : product.isActive = false
    · simp [itemError, hfp, hact] at hie
      simp [processItems, hfp, hact, hie]
    · by_cases hstock : product.stockQuantity < item.quantity
      · simp [itemError, hfp, hact, hstock] at hie
        simp [processItems, hfp, hact, hstock, hie]
      · simp [itemError, hfp, hact, hstock] at hie

/-- If the head item passes all checks, the validation loop continues with
the tail, prepending the head's snapshot and subtotal. -/
theorem processItems_head_ok (ps : List Product) (item : RequestedItem)
    (rest : List RequestedItem) (product : Product)
    (hfp : findProduct ps item.productId = some product)
    (hact : ¬ product.isActive = false)
    (hstock : ¬ product.stockQuantity < item.quantity) :
    processItems ps (item :: rest) =
      match processItems ps rest with
      | Except.error e => Except.error e
      | Except.ok (items, total) =>
          Except.ok (snapshotItem product item :: items,
            product.price * item.quantity + total) := by
  simp [processItems, hfp, hact, hstock]

/-- The validation loop fails exactly with the first violating item's
error, the one findSome? selects. -/
theorem processItems_of_first_error (ps : List Product) :
    ∀ (items : List RequestedItem) (e : CreateOrderError),
      items.findSome? (itemError ps) = some e →
      processItems ps items = Except.error e
  | [], e, h => by simp [List.findSome?] at h
  | item :: rest, e, h => by
    cases hie : itemError ps item with
    | some e0 =>
      have he : e0 = e := by simpa [List.findSome?, hie] using h
      subst he
      exact processItems_head_error ps item rest e0 hie
    | none =>
      have h' : rest.findSome? (itemError ps) = some e := by
        simpa [List.findSome?, hie] using h
      cases hfp : findProduct ps item.productId with
      | none => simp [itemError, hfp] at hie
      | some product =>
        by_cases hact : product.isActive = false
        · simp [itemError, hfp, hact] at hie
        · by_cases hstock : product.stockQuantity < item.quantity
          · simp [itemError, hfp, hact, hstock] at hie
          · rw [processItems_head_ok ps item rest product hfp hact hstock,
              processItems_of_first_error ps rest e h']

/-- A successful validation loop returns exactly the sum of
priceAtPurchase * quantity over the snapshots it produced. -/
theorem processItems_ok_total (ps : List Product) :
    ∀ (items : List RequestedItem) (snap : List OrderItem) (total : Int),
      processItems ps items = Except.ok (snap, total) →
      total = orderItemsTotal snap
  | [], snap, total, h => by
    simp [processItems] at h
    obtain ⟨h1, h2⟩ := h
    subst h1
    subst h2
    simp [orderItemsTotal]
  | item :: rest, snap, total, h => by
    cases hfp : findProduct ps item.productId with
    | none => simp [processItems, hfp] at h
    | some product =>
      by_cases hact : product.isActive = false
      · simp [processItems, hfp, hact] at h
      · by_cases hstock : product.stockQuantity < item.quantity
        · simp [processItems, hfp, hact, hstock] at h
        · rw [processItems_head_ok ps item rest product hfp hact hstock] at h
          cases hrec : processItems ps rest with
          | error e => rw [hrec] at h; simp at h
          | ok p =>
            obtain ⟨snap', total'⟩ := p
            rw [hrec] at h
            simp only [Except.ok.injEq, Prod.mk.injEq] at h
            obtain ⟨h1, h2⟩ := h
            subst h1
            subst h2
            have hrest := processItems_ok_total ps rest snap' total' hrec
            simp [orderItemsTotal, snapshotItem, List.sum_cons, hrest]

/-- Appending an order whose id is not yet present makes it the one found
by that id. -/
theorem findOrderById_append_fresh (os : List Order) (o : Order) (oid : Nat)
    (hfresh : findOrderById os oid = none) (hid : o.id = oid) :
    findOrderById (os ++ [o]) oid = some o := by
  induction os with
  | nil => simp [findOrderById, List.find?, hid]
  | cons x xs ih =>
    have hx : ¬ x.id = oid := by
      intro hcontra
      simp [findOrderById, List.find?, hcontra] at hfresh
    have hfresh' : findOrderById xs oid = none := by
      simpa [findOrderById, List.find?, hx] using hfresh
    simpa [findOrderById, List.find?, hx] using ih hfresh'

/-- C4: CreateOrder validates sequentially and fails fast: whenever some
requested item references a missing product, an inactive product, or a
product with insufficient stock, the operation returns HTTP 400 carrying
the error of the first violating item (in list order, as selected by
findSome?) and the state is returned unchanged — no Order is persisted. -/
theorem createOrder_fail_fast (db : DB) (nid : Nat) (gen : String)
    (items : List RequestedItem) (gw : GatewayOutcome) (sk : Bool)
    (hbad : ∃ x, x ∈ items ∧ (itemError db.products x).isSome = true) :
    ∃ e, items.findSome? (itemError db.products) = some e ∧
      createOrder db nid gen items gw sk =
        { status := 400, error := some e, db := db } := by
  obtain ⟨x, hx, hix⟩ := hbad
  obtain ⟨e, he⟩ := findSome?_isSome_of_mem (itemError db.products) items x hx hix
  refine ⟨e, he, ?_⟩
  have herr := processItems_of_first_error db.products items e he
  simp [createOrder, herr]

/-- Witness for C4 at the specification's scenario: item A valid, item B
referencing a nonexistent product; creation fails with ProductNotFound and
the state is unchanged. -/
theorem createOrder_fail_fast_witness :
    (∃ x, x ∈ cartWithMissing ∧ (itemError sampleDb.products x).isSome = true) ∧
    (∃ e, cartWithMissing.findSome? (itemError sampleDb.products) = some e ∧
      createOrder sampleDb 10 ("ORD-10") cartWithMissing GatewayOutcome.apiError true =
        { status := 400, error := some e, db := sampleDb }) :=
  ⟨⟨⟨2, 1⟩, by decide, by decide⟩,
    createOrder_fail_fast sampleDb 10 ("ORD-10") cartWithMissing
      GatewayOutcome.apiError true ⟨⟨2, 1⟩, by decide, by decide⟩⟩

/-- C5: when validation succeeds but the checkout-session call fails at the
gateway, the response is HTTP 502 carrying the persisted order's orderId
and internal order id, and the order remains persisted in PENDING_PAYMENT
with empty paymentDetails — it is not rolled back.  The hypothesis on
`gen` reflects that generateOrderId always returns a nonempty string. -/
theorem createOrder_gateway_error (db : DB) (nid : Nat) (gen : String)
    (items : List RequestedItem) (snap : List OrderItem) (total : Int)
    (hok : processItems db.products items = Except.ok (snap, total))
    (hgen : ¬ gen = "") (hfresh : findOrderById db.orders nid = none) :
    (createOrder db nid gen items GatewayOutcome.apiError true).status = 502 ∧
    (createOrder db nid gen items GatewayOutcome.apiError true).orderId = some gen ∧
    (createOrder db nid gen items GatewayOutcome.apiError true).internalOrderId =
      some nid ∧
    findOrderById (createOrder db nid gen items GatewayOutcome.apiError true).db.orders
      nid = some (pendingOrder nid gen snap total) := by
  have happend := findOrderById_append_fresh db.orders (pendingOrder nid gen snap total)
    nid hfresh rfl
  refine ⟨?_, ?_, ?_, ?_⟩
  · simp [createOrder, hok]
  · simp [createOrder, hok, hgen]
  · simp [createOrder, hok]
  · simpa [createOrder, hok, pendingOrder] using happend

/-- Witness for C5: gateway network error after persisting the sample
order; 502 with both identifiers, order still pending with empty
paymentDetails. -/
theorem createOrder_gateway_error_witness :
    (createOrder catalogOnlyDb 9 ("ORD-9") sampleCart GatewayOutcome.apiError
      true).status = 502 ∧
    (createOrder catalogOnlyDb 9 ("ORD-9") sampleCart GatewayOutcome.apiError
      true).orderId = some ("ORD-9") ∧
    (createOrder catalogOnlyDb 9 ("ORD-9") sampleCart GatewayOutcome.apiError
      true).internalOrderId = some 9 ∧
    findOrderById (createOrder catalogOnlyDb 9 ("ORD-9") sampleCart
      GatewayOutcome.apiError true).db.orders 9 =
      some (pendingOrder 9 ("ORD-9")
        [{ productId := 1, name := "Inhaler", priceAtPurchase := 10000
           quantity := 2, image := none }] 20000) :=
  createOrder_gateway_error catalogOnlyDb 9 ("ORD-9") sampleCart
    [{ productId := 1, name := "Inhaler", priceAtPurchase := 10000
       quantity := 2, image := none }] 20000 rfl (by decide) (by decide)

/-- C9: for every order accepted by CreateOrder (gateway succeeded or not,
secret configured or not), the persisted order's totalAmount equals the
sum of priceAtPurchase * quantity over its snapshotted order items — an
integer, so the Math.round of the source is the identity — computed from
the product prices read at creation time; and a later product price update
touches only the products collection, leaving every persisted order (hence
its totalAmount and items) unchanged. -/
theorem createOrder_total_invariant (db : DB) (nid : Nat) (gen : String)
    (items : List RequestedItem) (gw : GatewayOutcome) (sk : Bool)
    (snap : List OrderItem) (total : Int)
    (hok : processItems db.products items = Except.ok (snap, total))
    (hfresh : findOrderById db.orders nid = none) :
    ∃ o : Order,
      findOrderById (createOrder db nid gen items gw sk).db.orders nid = some o ∧
      o.orderItems = snap ∧
      o.totalAmount = orderItemsTotal o.orderItems ∧
      (∀ (pid : Nat) (newPrice : Int),
        (updateProductPrice (createOrder db nid gen items gw sk).db pid
          newPrice).orders = (createOrder db nid gen items gw sk).db.orders) := by
  have htotal := processItems_ok_total db.products items snap total hok
  have happend := findOrderById_append_fresh db.orders (pendingOrder nid gen snap total)
    nid hfresh rfl
  cases sk with
  | false =>
    refine ⟨pendingOrder nid gen snap total, ?_, rfl, ?_, ?_⟩
    · simpa [createOrder, hok, pendingOrder] using happend
    · simpa [pendingOrder] using htotal
    · intro pid newPrice
      simp [updateProductPrice]
  | true =>
    cases gw with
    | apiError =>
      refine ⟨pendingOrder nid gen snap total, ?_, rfl, ?_, ?_⟩
      · simpa [createOrder, hok, pendingOrder] using happend
      · simpa [pendingOrder] using htotal
      · intro pid newPrice
        simp [updateProductPrice]
    | ok checkoutUrl checkoutSessionId paymentIntentId =>
      by_cases hurl : checkoutUrl = "" ∨ checkoutSessionId = ""
      · refine ⟨pendingOrder nid gen snap total, ?_, rfl, ?_, ?_⟩
        · simpa [createOrder, hok, hurl, pendingOrder] using happend
        · simpa [pendingOrder] using htotal
        · intro pid newPrice
          simp [updateProductPrice]
      · refine ⟨{ pendingOrder nid gen snap total with
            paymentDetails :=
              { paymongoCheckoutId := some checkoutSessionId
                paymongoPaymentIntentId := paymentIntentId
                status := some ("awaiting_payment_gateway") } }, ?_, rfl, ?_, ?_⟩
        · have hsave := findOrderById_saveOrder nid (pendingOrder nid gen snap total)
            ({ pendingOrder nid gen snap total with
              paymentDetails :=
                { paymongoCheckoutId := some checkoutSessionId
                  paymongoPaymentIntentId := paymentIntentId
                  status := some ("awaiting_payment_gateway") } }) rfl
            (db.orders ++ [pendingOrder nid gen snap total]) happend
          simpa [createOrder, hok, hurl, pendingOrder] using hsave
        · simpa [pendingOrder] using htotal
        · intro pid newPrice
          simp [updateProductPrice]

/-- Witness for C9: the successful creation pipeline persists the sample
order with totalAmount 20000 = 10000 * 2, and price updates do not touch
orders. -/
theorem createOrder_total_invariant_witness :
    ∃ o : Order,
      findOrderById (createOrder catalogOnlyDb 9 ("ORD-9") sampleCart
        (GatewayOutcome.ok ("https://pay.example") ("cs_77") (some ("pi_77")))
        true).db.orders 9 = some o ∧
      o.orderItems = [{ productId := 1, name := "Inhaler", priceAtPurchase := 10000
                        quantity := 2, image := none }] ∧
      o.totalAmount = orderItemsTotal o.orderItems ∧
      (∀ (pid : Nat) (newPrice : Int),
        (updateProductPrice (createOrder catalogOnlyDb 9 ("ORD-9") sampleCart
          (GatewayOutcome.ok ("https://pay.example") ("cs_77") (some ("pi_77")))
          true).db pid newPrice).orders =
        (createOrder catalogOnlyDb 9 ("ORD-9") sampleCart
          (GatewayOutcome.ok ("https://pay.example") ("cs_77") (some ("pi_77")))
          true).db.orders) :=
  createOrder_total_invariant catalogOnlyDb 9 ("ORD-9") sampleCart
    (GatewayOutcome.ok ("https://pay.example") ("cs_77") (some ("pi_77"))) true
    [{ productId := 1, name := "Inhaler", priceAtPurchase := 10000
       quantity := 2, image := none }] 20000 rfl (by decide)
